import Mathlib

/-!
Shallow embedding of the emploi-api backend: the user credential model and its
mongoose hooks (src/models/userModel.js), the authentication and password-reset
controllers (src/controllers/authController.js), the error envelope
(src/utils/errorHandler.js), and the Completed-record controller
(src/unnamed/part_001). External collaborators (bcrypt, sha256, the jwt signer,
the mail service, the team-membership lookup) are passed in as function
parameters, mirroring how the code delegates to them.
Times are natural numbers of milliseconds since the epoch, as in js Date.now().
-/

/-- From src/utils/errorHandler.js: message, statusCode, and a derived status
string that is "failed" for 4xx codes and "error" otherwise. -/
structure ErrorHandler where
  message : String
  statusCode : Nat
  status : String
deriving DecidableEq

/-- The ErrorHandler constructor: status is "failed" when the decimal status
code starts with the digit 4, "error" otherwise. -/
def ErrorHandler.make (message : String) (statusCode : Nat) : ErrorHandler :=
  { message := message, statusCode := statusCode,
    status := if (Nat.repr statusCode).startsWith "4" then "failed" else "error" }

/-- A user document, from the userSchema in src/models/userModel.js.
Date fields are Option Nat (milliseconds); unset mongoose fields are none. -/
structure UserDoc where
  id : String
  name : String
  email : String
  photo : String
  role : String
  password : String
  passwordConfirmation : Option String
  passwordChangedAt : Option Nat
  passwordResetToken : Option String
  passwordResetExpiresIn : Option Nat
  isActive : Bool
  confirmed : Bool
deriving DecidableEq

/-- The verified payload of a signed session token: user id and issue time in
whole seconds (the iat claim). Signing and signature checking belong to the
external jsonwebtoken collaborator. -/
structure Jwt where
  id : String
  iat : Nat
deriving DecidableEq

/-- From authController.getJwtToken: signs a token for the id; the jwt library
stamps iat with the current time in whole seconds. -/
def getJwtToken (id : String) (nowMs : Nat) : Jwt :=
  { id := id, iat := nowMs / 1000 }

/-- The first userSchema.pre save hook: when the password path is modified,
replace the password with its bcrypt hash at cost 12 and unset the
passwordConfirmation field. bcrypt.hash is the external parameter bhash. -/
def hashPasswordHook (bhash : String → Nat → String) (user : UserDoc)
    (passwordModified : Bool) : UserDoc :=
  if passwordModified then
    { user with password := bhash user.password 12, passwordConfirmation := none }
  else user

/-- The second userSchema.pre save hook: when the password is modified on a
document that is not new, set passwordChangedAt to Date.now() minus 1000 ms. -/
def passwordChangedAtHook (user : UserDoc) (passwordModified isNew : Bool)
    (nowMs : Nat) : UserDoc :=
  if !passwordModified || isNew then user
  else { user with passwordChangedAt := some (nowMs - 1000) }

/-- userSchema.methods.isPasswordCorrect: delegates to bcrypt.compare. -/
def isPasswordCorrect (bcompare : String → String → Bool)
    (passwordToCheck correctPassword : String) : Bool :=
  bcompare passwordToCheck correctPassword

/-- userSchema.methods.isPasswordChangedAfterTokenIsIssued: when
passwordChangedAt is set, compare its value truncated to whole seconds
(parseInt of getTime()/1000) against the token iat; unset means false. -/
def isPasswordChangedAfterTokenIsIssued (user : UserDoc) (jwtTimeStamp : Nat) : Bool :=
  match user.passwordChangedAt with
  | some changedAt => decide (jwtTimeStamp < changedAt / 1000)
  | none => false

/-- userSchema.methods.createPasswordResetToken: the random hex string comes
from the external crypto.randomBytes; its sha256 hex digest is persisted in
passwordResetToken, the expiry is now plus ten minutes, and the plain token is
returned. -/
def createPasswordResetToken (sha256 : String → String) (randomHex : String)
    (nowMs : Nat) (user : UserDoc) : UserDoc × String :=
  ({ user with
      passwordResetToken := some (sha256 randomHex),
      passwordResetExpiresIn := some (nowMs + 10 * 60 * 1000) },
   randomHex)

/-- The userSchema.pre find hook: every find query is narrowed to documents
whose isActive is not false. -/
def findFilterHook (users : List UserDoc) : List UserDoc :=
  users.filter (fun u => u.isActive != false)

/-- User.findById as the controllers see it: the pre-find hook applies, so
soft-deleted users are invisible. -/
def findById (users : List UserDoc) (id : String) : Option UserDoc :=
  (findFilterHook users).find? (fun u => u.id == id)

/-- User.findOne on the email field; the pre-find hook applies. -/
def findOneByEmail (users : List UserDoc) (email : String) : Option UserDoc :=
  (findFilterHook users).find? (fun u => u.email == email)

/-- document.save modelled on a store that is a list of user documents:
replace the documents carrying the saved id. -/
def saveUser (users : List UserDoc) (user : UserDoc) : List UserDoc :=
  users.map (fun u => if u.id == user.id then user else u)

def notLoggedInMessage : String :=
  "You\x27re not logged in. Please Login to get access to this URL"

def noAccountMessage : String :=
  "There\x27s no account with the given email address."

def passwordChangedMessage : String :=
  "Your account password has been changed. Please login again to continue"

/-- authController.isAuthenticated after token extraction and signature
verification: none models a request with no token; otherwise look the user up
by the id in the payload (through the find hook) and reject when the password
was changed after the token was issued. -/
def isAuthenticated (users : List UserDoc) (tokenId : Option Jwt) :
    Except ErrorHandler UserDoc :=
  match tokenId with
  | none => .error (ErrorHandler.make notLoggedInMessage 401)
  | some payload =>
    match findById users payload.id with
    | none => .error (ErrorHandler.make noAccountMessage 401)
    | some user =>
      if isPasswordChangedAfterTokenIsIssued user payload.iat then
        .error (ErrorHandler.make passwordChangedMessage 401)
      else
        .ok user

def notAllowedMessage : String :=
  "You\x27re not allowed to access this route."

/-- authController.restrictTo: reject with 403 when the authenticated user
role is outside the allowed list. -/
def restrictTo (roles : List String) (user : UserDoc) : Except ErrorHandler Unit :=
  if !(roles.contains user.role) then
    .error (ErrorHandler.make notAllowedMessage 403)
  else
    .ok ()

def provideEmailMessage : String :=
  "Please provide email address to change your password."

def noUserEmailMessage : String :=
  "No user exists with that email id"

def resetMailSentMessage : String :=
  "Token Id (URL) to reset your password was sent to your email address."

def emailTroubleMessage : String :=
  "There\x27s some problem with sending email. Please try again later."

/-- authController.forgotPassword: look the user up by email, persist the
reset token and expiry, then attempt delivery (the emailDelivers flag stands
for the external mail collaborator). On delivery failure the two reset fields
are set to undefined and saved again, and the call fails with 500. Returns the
final user store together with the outcome. -/
def forgotPassword (sha256 : String → String) (randomHex : String) (nowMs : Nat)
    (emailDelivers : Bool) (users : List UserDoc) (email : Option String) :
    List UserDoc × Except ErrorHandler String :=
  match email with
  | none => (users, .error (ErrorHandler.make provideEmailMessage 400))
  | some e =>
    match findOneByEmail users e with
    | none => (users, .error (ErrorHandler.make noUserEmailMessage 404))
    | some user =>
      let withToken := (createPasswordResetToken sha256 randomHex nowMs user).1
      let usersAfterSave := saveUser users withToken
      if emailDelivers then
        (usersAfterSave, .ok resetMailSentMessage)
      else
        let rolledBack := { withToken with
          passwordResetToken := none, passwordResetExpiresIn := none }
        (saveUser usersAfterSave rolledBack,
         .error (ErrorHandler.make emailTroubleMessage 500))

def invalidTokenMessage : String :=
  "Token is invalid or expired."

/-- The findOne condition used by resetPassword: the stored hash equals the
sha256 digest of the presented raw token and the stored expiry is strictly in
the future. An unset expiry can never satisfy the greater-than condition. -/
def resetTokenMatches (sha256 : String → String) (resetToken : String)
    (nowMs : Nat) (u : UserDoc) : Bool :=
  u.passwordResetToken == some (sha256 resetToken) &&
    match u.passwordResetExpiresIn with
    | some expiry => decide (nowMs < expiry)
    | none => false

/-- authController.resetPassword: hash the raw token, find a matching unexpired
user (through the find hook); on failure return the single 400 error. On
success set the new password, clear the reset fields, save (which runs both
pre-save hooks) and issue a fresh session token. -/
def resetPassword (sha256 : String → String) (bhash : String → Nat → String)
    (nowMs : Nat) (users : List UserDoc)
    (resetToken newPassword newPasswordConfirmation : String) :
    List UserDoc × Except ErrorHandler Jwt :=
  match (findFilterHook users).find? (resetTokenMatches sha256 resetToken nowMs) with
  | none => (users, .error (ErrorHandler.make invalidTokenMessage 400))
  | some user =>
    let updated := { user with
      password := newPassword,
      passwordConfirmation := some newPasswordConfirmation,
      passwordResetToken := none,
      passwordResetExpiresIn := none }
    let saved := passwordChangedAtHook (hashPasswordHook bhash updated true) true false nowMs
    (saveUser users saved, .ok (getJwtToken saved.id nowMs))

/-- Modelled from the spec: models/completedModel is not among the provided
sources; per the data model a Completed record references a User and a Test by
id. The owning user id is what the controller compares against the acting
user. -/
structure CompletedDoc where
  id : String
  test : String
  user : String
deriving DecidableEq

/-- A test document; only its identity matters to the Completed controller. -/
structure TestDoc where
  id : String
deriving DecidableEq

/-- Completed.findById: the Completed collection has no soft-delete hook. -/
def Completed.findById (db : List CompletedDoc) (id : String) : Option CompletedDoc :=
  db.find? (fun c => c.id == id)

/-- Test.findById for the Completed controller. -/
def Test.findById (tests : List TestDoc) (id : String) : Option TestDoc :=
  tests.find? (fun t => t.id == id)

def noCompletedMessage : String :=
  "No Completed Test was found with the given id."

def noPermissionMessage : String :=
  "You don\x27t have permission to do this action."

/-- updateCompleted from src/unnamed/part_001: 404 when the record is missing;
401 when the acting user neither owns the record nor has role admin; otherwise
apply the body update. Returns the final store and the outcome. -/
def updateCompleted (db : List CompletedDoc) (cid : String) (actingUser : UserDoc)
    (body : CompletedDoc → CompletedDoc) :
    List CompletedDoc × Except ErrorHandler CompletedDoc :=
  match Completed.findById db cid with
  | none => (db, .error (ErrorHandler.make noCompletedMessage 404))
  | some current =>
    if current.user != actingUser.id && actingUser.role != "admin" then
      (db, .error (ErrorHandler.make noPermissionMessage 401))
    else
      let updated := body current
      (db.map (fun c => if c.id == cid then updated else c), .ok updated)

/-- deleteCompleted from src/unnamed/part_001: same lookup and permission
check as updateCompleted, then remove the record. -/
def deleteCompleted (db : List CompletedDoc) (cid : String) (actingUser : UserDoc) :
    List CompletedDoc × Except ErrorHandler Unit :=
  match Completed.findById db cid with
  | none => (db, .error (ErrorHandler.make noCompletedMessage 404))
  | some current =>
    if current.user != actingUser.id && actingUser.role != "admin" then
      (db, .error (ErrorHandler.make noPermissionMessage 401))
    else
      (db.filter (fun c => c.id != cid), .ok ())

def noUserIdMessage : String :=
  "No user exists with the given Id."

def noTestMessage : String :=
  "No test exists with the given Id."

def notInTeamMessage : String :=
  "You don\x27t belong in this team to mark this test as applied."

/-- addNewCompleted from src/unnamed/part_001: the referenced user
(params.userId) must exist, the referenced test must exist, and the call is
rejected with 401 when isMemberOfSameTeam(body.test, params.userId) is false
and the acting user is not an admin; note the membership lookup receives the
referenced user id, not the acting user id. The membership relation is the
external utils/checkIfMemberOfSameTeam collaborator. -/
def addNewCompleted (isMemberOfSameTeam : String → String → Bool)
    (users : List UserDoc) (tests : List TestDoc) (db : List CompletedDoc)
    (paramsUserId : String) (body : CompletedDoc) (actingUser : UserDoc) :
    List CompletedDoc × Except ErrorHandler CompletedDoc :=
  match findById users paramsUserId with
  | none => (db, .error (ErrorHandler.make noUserIdMessage 404))
  | some _ =>
    match Test.findById tests body.test with
    | none => (db, .error (ErrorHandler.make noTestMessage 404))
    | some _ =>
      if !(isMemberOfSameTeam body.test paramsUserId) && actingUser.role != "admin" then
        (db, .error (ErrorHandler.make notInTeamMessage 401))
      else
        (db ++ [body], .ok body)

/-- The signUp request body before filtering; role and confirmed are the two
fields the production allow-list removes. -/
structure SignUpPayload where
  name : String
  email : String
  photo : Option String
  password : String
  passwordConfirmation : String
  role : Option String
  confirmed : Option Bool
deriving DecidableEq

/-- Modelled from the spec: utils/filterBody is not among the provided
sources; it keeps only the allow-listed fields of the body. Specialised to the
two signUp call sites: the production allow-list omits role and confirmed, the
development one includes them. -/
def filterBody (isProduction : Bool) (body : SignUpPayload) : SignUpPayload :=
  if isProduction then { body with role := none, confirmed := none } else body

/-- User.create: schema defaults (photo default.jpg, role user, confirmed
false, isActive true) fill the absent fields, then the pre-save password hook
runs on the new document (passwordChangedAt stays unset because the document
is new). -/
def User.create (bhash : String → Nat → String) (newId : String)
    (body : SignUpPayload) : UserDoc :=
  hashPasswordHook bhash
    { id := newId, name := body.name, email := body.email,
      photo := body.photo.getD "default.jpg",
      role := body.role.getD "user",
      password := body.password,
      passwordConfirmation := some body.passwordConfirmation,
      passwordChangedAt := none,
      passwordResetToken := none,
      passwordResetExpiresIn := none,
      isActive := true,
      confirmed := body.confirmed.getD false }
    true

def confirmMailMessage : String :=
  "Please Confirm Your Email to continue. A link has been sent to your email address. (Valid Only For 90 days)."

/-- The observable outcome of signUp: the created user, plus what the response
carries (a tokenId only on the sendJwtToken path) and what the confirmation
mail carries (a token embedded in the confirmation URL only on the
sendConfirmationMail path). -/
structure SignUpResult where
  user : UserDoc
  statusCode : Nat
  responseTokenId : Option Jwt
  emailedConfirmToken : Option Jwt
  message : Option String
deriving DecidableEq

/-- authController.signUp: filter the body (allow-list depends on the
production flag), create the user, then either send the confirmation mail and
respond without a token (production) or respond with a fresh session token
(development). -/
def signUp (bhash : String → Nat → String) (isProduction : Bool) (newId : String)
    (nowMs : Nat) (body : SignUpPayload) : SignUpResult :=
  let filteredBody := filterBody isProduction body
  let user := User.create bhash newId filteredBody
  if isProduction then
    { user := user, statusCode := 200, responseTokenId := none,
      emailedConfirmToken := some (getJwtToken user.id nowMs),
      message := some confirmMailMessage }
  else
    { user := user, statusCode := 200,
      responseTokenId := some (getJwtToken user.id nowMs),
      emailedConfirmToken := none, message := none }

/-- A concrete active, confirmed user for witnesses and counterexamples. -/
def sampleUser : UserDoc :=
  { id := "u1", name := "Alice", email := "alice@example.com",
    photo := "default.jpg", role := "user", password := "password123",
    passwordConfirmation := none, passwordChangedAt := none,
    passwordResetToken := none, passwordResetExpiresIn := none,
    isActive := true, confirmed := true }

/-- A concrete admin user. -/
def adminUser : UserDoc :=
  { sampleUser with id := "a1", email := "admin@example.com", role := "admin" }

/-- A concrete authenticated user who is neither owner nor admin of the
records used in the witnesses. -/
def strangerUser : UserDoc :=
  { sampleUser with id := "u9", email := "nine@example.com", role := "user" }

/-- A stand-in for the sha256 hex digest: any function works for the theorems,
which never rely on its properties. -/
def demoSha (s : String) : String := s ++ "#sha256"

/-- A bcrypt stand-in used only to witness theorems whose hypotheses are the
bcrypt contract: the hash prepends a fixed salt header, so it never equals its
input and can be recognised by the matching compare. -/
def demoBHash (p : String) (_cost : Nat) : String := "$2a$12$" ++ p

/-- The compare matching demoBHash. -/
def demoBCompare (p h : String) : Bool := h == "$2a$12$" ++ p

/-- C9: restrictTo rejects with an AuthzError of status 403 exactly when the
authenticated user's role is outside the allowed list; in particular
restrictTo admin denies a user-role caller and allows an admin-role caller. -/
theorem restrictTo_denies_iff_role_not_allowed (roles : List String) (u : UserDoc) :
    (restrictTo roles u = .error (ErrorHandler.make notAllowedMessage 403) ↔
      u.role ∉ roles) ∧
    (restrictTo roles u = .ok () ↔ u.role ∈ roles) ∧
    (ErrorHandler.make notAllowedMessage 403).statusCode = 403 ∧
    restrictTo ["admin"] { u with role := "user" } =
      .error (ErrorHandler.make notAllowedMessage 403) ∧
    restrictTo ["admin"] { u with role := "admin" } = .ok () := by
  refine ⟨?_, ?_, rfl, ?_, ?_⟩
  · unfold restrictTo
    by_cases h : u.role ∈ roles <;> simp [h]
  · unfold restrictTo
    by_cases h : u.role ∈ roles <;> simp [h]
  · simp [restrictTo]
  · simp [restrictTo]

/-- C6: in production configuration the allow-list discards the role and
confirmed fields of the payload, so the created user has role user and
confirmed false, and the response carries a confirmation message and no
session token (the fresh token goes into the confirmation mail URL instead);
in non-production configuration the response carries a session token at
once. -/
theorem signUp_production_policy (bhash : String → Nat → String)
    (body : SignUpPayload) (newId : String) (nowMs : Nat) :
    (signUp bhash true newId nowMs body).user.role = "user" ∧
    (signUp bhash true newId nowMs body).user.confirmed = false ∧
    (signUp bhash true newId nowMs body).responseTokenId = none ∧
    (signUp bhash true newId nowMs body).emailedConfirmToken =
      some (getJwtToken newId nowMs) ∧
    (signUp bhash true newId nowMs body).message = some confirmMailMessage ∧
    (signUp bhash false newId nowMs body).responseTokenId =
      some (getJwtToken newId nowMs) ∧
    (signUp bhash false newId nowMs body).emailedConfirmToken = none := by
  refine ⟨rfl, rfl, rfl, rfl, rfl, rfl, rfl⟩

/-- C7: createPasswordResetToken returns the plain token and persists exactly
its one-way hash, with expiry ten minutes after issuance; at any time before
that expiry the stored user satisfies the matching predicate that
resetPassword uses to look the plain token up. -/
theorem createPasswordResetToken_roundtrip (sha256 : String → String)
    (randomHex : String) (nowMs : Nat) (u : UserDoc) :
    (createPasswordResetToken sha256 randomHex nowMs u).2 = randomHex ∧
    (createPasswordResetToken sha256 randomHex nowMs u).1.passwordResetToken =
      some (sha256 (createPasswordResetToken sha256 randomHex nowMs u).2) ∧
    (createPasswordResetToken sha256 randomHex nowMs u).1.passwordResetExpiresIn =
      some (nowMs + 10 * 60 * 1000) ∧
    (∀ t, t < nowMs + 10 * 60 * 1000 →
      resetTokenMatches sha256 (createPasswordResetToken sha256 randomHex nowMs u).2 t
        (createPasswordResetToken sha256 randomHex nowMs u).1 = true) := by
  refine ⟨rfl, rfl, rfl, ?_⟩
  intro t ht
  simp [createPasswordResetToken, resetTokenMatches, ht]

/-- C7 witness: the round-trip at a concrete token and time zero. -/
theorem createPasswordResetToken_roundtrip_witness :
    resetTokenMatches demoSha
      (createPasswordResetToken demoSha "rand" 0 sampleUser).2 5
      (createPasswordResetToken demoSha "rand" 0 sampleUser).1 = true :=
  (createPasswordResetToken_roundtrip demoSha "rand" 0 sampleUser).2.2.2 5 (by decide)

/-- C8: assuming the contract of the external bcrypt collaborator (compare
accepts a value against its own hash, and a hash never equals its input), the
pre-save hook stores the cost-12 bcrypt hash of the plaintext password, the
stored value differs from the plaintext, and isPasswordCorrect accepts the
plaintext against the stored value; the confirmation field is unset. -/
theorem password_hash_roundtrip (bhash : String → Nat → String)
    (bcompare : String → String → Bool) (u : UserDoc)
    (hcmp : ∀ p c, bcompare p (bhash p c) = true)
    (hne : ∀ p c, bhash p c ≠ p) :
    (hashPasswordHook bhash u true).password = bhash u.password 12 ∧
    (hashPasswordHook bhash u true).password ≠ u.password ∧
    isPasswordCorrect bcompare u.password (hashPasswordHook bhash u true).password
      = true ∧
    (hashPasswordHook bhash u true).passwordConfirmation = none :=
  ⟨rfl, hne u.password 12, hcmp u.password 12, rfl⟩

/-- C8 witness: the bcrypt contract holds for the stand-in hash, and the
round-trip follows for a concrete password. -/
theorem password_hash_roundtrip_witness :
    (hashPasswordHook demoBHash { sampleUser with password := "secret123" } true).password
      ≠ "secret123" ∧
    isPasswordCorrect demoBCompare "secret123"
      (hashPasswordHook demoBHash { sampleUser with password := "secret123" } true).password
      = true := by
  have hcmp : ∀ p c, demoBCompare p (demoBHash p c) = true := by
    intro p c
    simp [demoBCompare, demoBHash]
  have hne : ∀ p c, demoBHash p c ≠ p := by
    intro p c h
    have hlen := congrArg String.length h
    have h7 : ("$2a$12$" : String).length = 7 := by decide
    rw [demoBHash, String.length_append, h7] at hlen
    omega
  have H := password_hash_roundtrip demoBHash demoBCompare
    { sampleUser with password := "secret123" } hcmp hne
  exact ⟨H.2.1, H.2.2.1⟩

/-- Any member of a saved store that carries the saved id is the saved
document: saveUser replaces every match and leaves only documents with other
ids untouched. -/
theorem saveUser_mem_of_id {users : List UserDoc} {w u : UserDoc}
    (hmem : u ∈ saveUser users w) (hid : u.id = w.id) : u = w := by
  unfold saveUser at hmem
  rw [List.mem_map] at hmem
  obtain ⟨v, _, hv⟩ := hmem
  by_cases h : v.id == w.id
  · simpa [h] using hv.symm
  · exfalso
    rw [← hv] at hid
    simp [h] at hid
    exact absurd hid (by simpa using h)

/-- C10: a validly signed token for a user whose isActive flag is false fails
authentication with the 401 no-account error, because the default find filter
hides inactive users from the lookup. -/
theorem inactive_user_never_authenticates (users : List UserDoc) (payload : Jwt)
    (h : ∀ u ∈ users, u.id = payload.id → u.isActive = false) :
    isAuthenticated users (some payload) =
      .error (ErrorHandler.make noAccountMessage 401) := by
  have hfind : findById users payload.id = none := by
    unfold findById findFilterHook
    rw [List.find?_eq_none]
    intro u hu
    rw [List.mem_filter] at hu
    obtain ⟨hmem, hactive⟩ := hu
    intro heq
    have hid : u.id = payload.id := by simpa using heq
    have := h u hmem hid
    simp [this] at hactive
  simp [isAuthenticated, hfind]

/-- C10 witness: a concrete soft-deleted user is rejected even with a valid
token naming their id. -/
theorem inactive_user_never_authenticates_witness :
    isAuthenticated [{ sampleUser with isActive := false }]
      (some { id := sampleUser.id, iat := 0 }) =
      .error (ErrorHandler.make noAccountMessage 401) := by
  refine inactive_user_never_authenticates _ _ ?_
  intro u hu _
  rw [List.mem_singleton] at hu
  rw [hu]

/-- C4: whenever no visible user both stores the hash of the presented raw
token and has an unexpired reset expiry — which covers the unknown-token case
and the expired-token case alike — resetPassword returns the one 400 invalid
or expired error and leaves every user unchanged, so no password changes and
the two failure causes are observationally identical. -/
theorem resetPassword_uniform_failure (sha256 : String → String)
    (bhash : String → Nat → String) (nowMs : Nat) (users : List UserDoc)
    (tok newPw newPwConf : String)
    (h : ∀ u ∈ findFilterHook users, resetTokenMatches sha256 tok nowMs u = false) :
    resetPassword sha256 bhash nowMs users tok newPw newPwConf =
      (users, .error (ErrorHandler.make invalidTokenMessage 400)) := by
  unfold resetPassword
  have hnone : (findFilterHook users).find? (resetTokenMatches sha256 tok nowMs) = none := by
    rw [List.find?_eq_none]
    intro u hu
    simp [h u hu]
  rw [hnone]

/-- C4 witness: a store holding one user whose reset token expired at 1000 ms;
at time 2000 ms both a call with the very token that once matched and a call
with an unknown token produce the identical 400 error and identical unchanged
store. -/
theorem resetPassword_uniform_failure_witness :
    resetPassword demoSha demoBHash 2000
        [{ sampleUser with
            passwordResetToken := some (demoSha "old"),
            passwordResetExpiresIn := some 1000 }] "old" "newpass1" "newpass1" =
      ([{ sampleUser with
            passwordResetToken := some (demoSha "old"),
            passwordResetExpiresIn := some 1000 }],
       .error (ErrorHandler.make invalidTokenMessage 400)) ∧
    resetPassword demoSha demoBHash 2000
        [{ sampleUser with
            passwordResetToken := some (demoSha "old"),
            passwordResetExpiresIn := some 1000 }] "unknown" "newpass1" "newpass1" =
      ([{ sampleUser with
            passwordResetToken := some (demoSha "old"),
            passwordResetExpiresIn := some 1000 }],
       .error (ErrorHandler.make invalidTokenMessage 400)) := by
  constructor
  · refine resetPassword_uniform_failure demoSha demoBHash 2000 _ "old" "newpass1" "newpass1" ?_
    intro u hu
    simp [findFilterHook] at hu
    rw [hu.1]
    decide
  · refine resetPassword_uniform_failure demoSha demoBHash 2000 _ "unknown" "newpass1" "newpass1" ?_
    intro u hu
    simp [findFilterHook] at hu
    rw [hu.1]
    decide

/-- C1 counterexample: the password of the sample user is changed at
T = 5000 ms, which stores passwordChangedAt = 4000 ms (the hook back-dates by
one second); a session token issued at 4999 ms — strictly before T — still
authenticates afterwards, because 4000 / 1000 is not greater than
4999 / 1000. This refutes the claim that every token issued before T fails
authentication. -/
theorem c1_counterexample :
    (4999 : Nat) < 5000 ∧
    isAuthenticated [passwordChangedAtHook sampleUser true false 5000]
        (some (getJwtToken sampleUser.id 4999)) =
      .ok (passwordChangedAtHook sampleUser true false 5000) := by
  exact ⟨by decide, rfl⟩

/-- C1 amended: after a password change at time T (ms), every token issued at
or after T passes the staleness check and authenticates; every token issued at
least 2000 ms before T fails the check and authentication returns the 401
password-changed error. Because the hook back-dates passwordChangedAt by one
second and the comparison is at whole-second granularity, a token issued
within the last instants before T may still pass, so the cut is not exactly
at T. -/
theorem passwordChange_staleness_amended (u : UserDoc) (T t : Nat)
    (hActive : u.isActive = true) :
    (T ≤ t →
      isPasswordChangedAfterTokenIsIssued (passwordChangedAtHook u true false T)
          (t / 1000) = false ∧
      isAuthenticated [passwordChangedAtHook u true false T]
          (some (getJwtToken u.id t)) =
        .ok (passwordChangedAtHook u true false T)) ∧
    (t + 2000 ≤ T →
      isPasswordChangedAfterTokenIsIssued (passwordChangedAtHook u true false T)
          (t / 1000) = true ∧
      isAuthenticated [passwordChangedAtHook u true false T]
          (some (getJwtToken u.id t)) =
        .error (ErrorHandler.make passwordChangedMessage 401)) := by
  have hchg : passwordChangedAtHook u true false T =
      { u with passwordChangedAt := some (T - 1000) } := rfl
  have hfind : findById [passwordChangedAtHook u true false T] u.id =
      some (passwordChangedAtHook u true false T) := by
    rw [hchg]
    simp [findById, findFilterHook, hActive]
  have hcheck : ∀ s : Nat,
      isPasswordChangedAfterTokenIsIssued (passwordChangedAtHook u true false T) s =
        decide (s < (T - 1000) / 1000) := by
    intro s
    rw [hchg]
    rfl
  constructor
  · intro hle
    have hc : isPasswordChangedAfterTokenIsIssued (passwordChangedAtHook u true false T)
        (t / 1000) = false := by
      rw [hcheck]
      exact decide_eq_false (by omega)
    refine ⟨hc, ?_⟩
    simp [isAuthenticated, getJwtToken, hfind, hc]
  · intro hle
    have hc : isPasswordChangedAfterTokenIsIssued (passwordChangedAtHook u true false T)
        (t / 1000) = true := by
      rw [hcheck]
      exact decide_eq_true (by omega)
    refine ⟨hc, ?_⟩
    simp [isAuthenticated, getJwtToken, hfind, hc]

/-- C1 amended witness: with the change at 5000 ms, a token issued at 6000 ms
authenticates and a token issued at 2000 ms is rejected with 401. -/
theorem passwordChange_staleness_amended_witness :
    isAuthenticated [passwordChangedAtHook sampleUser true false 5000]
        (some (getJwtToken sampleUser.id 6000)) =
      .ok (passwordChangedAtHook sampleUser true false 5000) ∧
    isAuthenticated [passwordChangedAtHook sampleUser true false 5000]
        (some (getJwtToken sampleUser.id 2000)) =
      .error (ErrorHandler.make passwordChangedMessage 401) :=
  ⟨((passwordChange_staleness_amended sampleUser 5000 6000 rfl).1 (by omega)).2,
   ((passwordChange_staleness_amended sampleUser 5000 2000 rfl).2 (by omega)).2⟩

/-- C2 counterexample: for an existing Completed record owned by user u1, an
authenticated caller u9 with role user — neither owner nor admin — is rejected
by updateCompleted and deleteCompleted with status 401, not with the claimed
AuthzError status 403. -/
theorem c2_counterexample :
    (updateCompleted [{ id := "c1", test := "t1", user := "u1" }] "c1" strangerUser
        (fun c => c)).2 =
      .error (ErrorHandler.make noPermissionMessage 401) ∧
    (deleteCompleted [{ id := "c1", test := "t1", user := "u1" }] "c1" strangerUser).2 =
      .error (ErrorHandler.make noPermissionMessage 401) ∧
    (ErrorHandler.make noPermissionMessage 401).statusCode = 401 ∧
    (ErrorHandler.make noPermissionMessage 401).statusCode ≠ 403 := by
  exact ⟨rfl, rfl, rfl, by decide⟩

/-- C2 amended: for every existing Completed record, updateCompleted and
deleteCompleted succeed when the acting user owns the record or has role
admin, and fail with the 401 permission error — not 403 — for every other
authenticated user, leaving the store unchanged. -/
theorem completed_mutation_authorization (db : List CompletedDoc) (cid : String)
    (acting : UserDoc) (body : CompletedDoc → CompletedDoc) (current : CompletedDoc)
    (hfound : Completed.findById db cid = some current) :
    ((current.user = acting.id ∨ acting.role = "admin") →
      (updateCompleted db cid acting body).2 = .ok (body current) ∧
      (deleteCompleted db cid acting).2 = .ok ()) ∧
    (current.user ≠ acting.id → acting.role ≠ "admin" →
      updateCompleted db cid acting body =
        (db, .error (ErrorHandler.make noPermissionMessage 401)) ∧
      deleteCompleted db cid acting =
        (db, .error (ErrorHandler.make noPermissionMessage 401))) := by
  constructor
  · intro hok
    have hcond : (current.user != acting.id && acting.role != "admin") = false := by
      rcases hok with h | h <;> simp [h]
    constructor
    · simp [updateCompleted, hfound, hcond]
    · simp [deleteCompleted, hfound, hcond]
  · intro h1 h2
    have hcond : (current.user != acting.id && acting.role != "admin") = true := by
      simp [h1, h2]
    constructor
    · simp [updateCompleted, hfound, hcond]
    · simp [deleteCompleted, hfound, hcond]

/-- C2 amended witness: the owner updates their record, an admin deletes it,
and a stranger is rejected with the 401 error while the store is unchanged. -/
theorem completed_mutation_authorization_witness :
    (updateCompleted [{ id := "c1", test := "t1", user := "u1" }] "c1" sampleUser
        (fun c => c)).2 = .ok { id := "c1", test := "t1", user := "u1" } ∧
    (deleteCompleted [{ id := "c1", test := "t1", user := "u1" }] "c1" adminUser).2 =
      .ok () ∧
    updateCompleted [{ id := "c1", test := "t1", user := "u1" }] "c1" strangerUser
        (fun c => c) =
      ([{ id := "c1", test := "t1", user := "u1" }],
       .error (ErrorHandler.make noPermissionMessage 401)) := by
  refine ⟨?_, ?_, ?_⟩
  · exact ((completed_mutation_authorization
      [{ id := "c1", test := "t1", user := "u1" }] "c1" sampleUser (fun c => c)
      { id := "c1", test := "t1", user := "u1" } rfl).1 (Or.inl rfl)).1
  · exact ((completed_mutation_authorization
      [{ id := "c1", test := "t1", user := "u1" }] "c1" adminUser (fun c => c)
      { id := "c1", test := "t1", user := "u1" } rfl).1 (Or.inr rfl)).2
  · exact ((completed_mutation_authorization
      [{ id := "c1", test := "t1", user := "u1" }] "c1" strangerUser (fun c => c)
      { id := "c1", test := "t1", user := "u1" } rfl).2 (by decide) (by decide)).1

/-- A user who already holds a pending reset token from an earlier
forgotPassword call. -/
def oldTokenUser : UserDoc :=
  { sampleUser with
    passwordResetToken := some "oldHash", passwordResetExpiresIn := some 7000 }

/-- C3 counterexample: the user enters the call holding a pending reset token
oldHash; email delivery fails after the new token was persisted, and the
failure path stores unset reset fields — it does not restore the pre-call
value, so the final store differs from the pre-call store. The 500 error is
returned as claimed. -/
theorem c3_counterexample :
    oldTokenUser.passwordResetToken = some "oldHash" ∧
    (forgotPassword demoSha "plain" 9000 false [oldTokenUser]
        (some oldTokenUser.email)).1 =
      [{ oldTokenUser with
          passwordResetToken := none, passwordResetExpiresIn := none }] ∧
    (forgotPassword demoSha "plain" 9000 false [oldTokenUser]
        (some oldTokenUser.email)).1 ≠ [oldTokenUser] ∧
    (forgotPassword demoSha "plain" 9000 false [oldTokenUser]
        (some oldTokenUser.email)).2 =
      .error (ErrorHandler.make emailTroubleMessage 500) := by
  exact ⟨rfl, rfl, by decide, rfl⟩

/-- C3 amended: when the user exists and email delivery fails after the reset
token and expiry were persisted, forgotPassword fails with the 500 server
error and the user ends with both reset fields cleared to unset — which equals
the pre-call reset state only when no reset was pending before the call. -/
theorem forgotPassword_rollback (sha256 : String → String) (randomHex : String)
    (nowMs : Nat) (users : List UserDoc) (email : String) (user : UserDoc)
    (hfound : findOneByEmail users email = some user) :
    (forgotPassword sha256 randomHex nowMs false users (some email)).2 =
      .error (ErrorHandler.make emailTroubleMessage 500) ∧
    ∀ u ∈ (forgotPassword sha256 randomHex nowMs false users (some email)).1,
      u.id = user.id →
        u.passwordResetToken = none ∧ u.passwordResetExpiresIn = none := by
  have heq : forgotPassword sha256 randomHex nowMs false users (some email) =
      (saveUser (saveUser users (createPasswordResetToken sha256 randomHex nowMs user).1)
        { (createPasswordResetToken sha256 randomHex nowMs user).1 with
            passwordResetToken := none, passwordResetExpiresIn := none },
       .error (ErrorHandler.make emailTroubleMessage 500)) := by
    simp [forgotPassword, hfound]
  constructor
  · rw [heq]
  · intro u hu hid
    rw [heq] at hu
    have hueq := saveUser_mem_of_id hu hid
    rw [hueq]
    exact ⟨rfl, rfl⟩

/-- C3 amended witness: the failure path at a concrete user and store. -/
theorem forgotPassword_rollback_witness :
    (forgotPassword demoSha "plain" 9000 false [sampleUser]
        (some sampleUser.email)).2 =
      .error (ErrorHandler.make emailTroubleMessage 500) :=
  (forgotPassword_rollback demoSha "plain" 9000 [sampleUser] sampleUser.email
    sampleUser rfl).1

/-- A team-membership relation for witnesses: only user u1 belongs to any
team. Any relation works: the theorems take it as a parameter, matching the
external checkIfMemberOfSameTeam collaborator. -/
def demoMember (_testId userId : String) : Bool := userId == "u1"

/-- A Completed record body used by the create witnesses. -/
def demoBody : CompletedDoc := { id := "c9", test := "t1", user := "u1" }

/-- C5 counterexample: the acting user u9 has role user and is not a member of
the team of test t1, yet addNewCompleted succeeds and persists the record,
because the code passes the referenced user id (params.userId, here u1, who is
a member) to the membership check, not the acting user id. This refutes the
claim that the acting user must be an admin or a team member. -/
theorem c5_counterexample :
    demoMember "t1" strangerUser.id = false ∧
    strangerUser.role ≠ "admin" ∧
    addNewCompleted demoMember [sampleUser] [{ id := "t1" }] [] "u1" demoBody
        strangerUser =
      ([demoBody], .ok demoBody) := by
  exact ⟨by decide, by decide, rfl⟩

/-- C5 amended: the referenced user and test must exist (404 otherwise), and
the create succeeds exactly when the referenced user (params.userId) is a
member of the test team or the acting user has role admin; otherwise it fails
with the 401 team error and no record is persisted. -/
theorem addNewCompleted_spec (isMember : String → String → Bool)
    (users : List UserDoc) (tests : List TestDoc) (db : List CompletedDoc)
    (userId : String) (body : CompletedDoc) (acting : UserDoc) :
    (findById users userId = none →
      addNewCompleted isMember users tests db userId body acting =
        (db, .error (ErrorHandler.make noUserIdMessage 404))) ∧
    (∀ u, findById users userId = some u → Test.findById tests body.test = none →
      addNewCompleted isMember users tests db userId body acting =
        (db, .error (ErrorHandler.make noTestMessage 404))) ∧
    (∀ u t, findById users userId = some u → Test.findById tests body.test = some t →
      isMember body.test userId = false → acting.role ≠ "admin" →
      addNewCompleted isMember users tests db userId body acting =
        (db, .error (ErrorHandler.make notInTeamMessage 401))) ∧
    (∀ u t, findById users userId = some u → Test.findById tests body.test = some t →
      (isMember body.test userId = true ∨ acting.role = "admin") →
      addNewCompleted isMember users tests db userId body acting =
        (db ++ [body], .ok body)) := by
  refine ⟨?_, ?_, ?_, ?_⟩
  · intro h
    simp [addNewCompleted, h]
  · intro u hu ht
    simp [addNewCompleted, hu, ht]
  · intro u t hu ht hm hr
    have hcond : (!(isMember body.test userId) && acting.role != "admin") = true := by
      simp [hm, hr]
    simp [addNewCompleted, hu, ht, hcond]
  · intro u t hu ht hok
    have hcond : (!(isMember body.test userId) && acting.role != "admin") = false := by
      rcases hok with h | h <;> simp [h]
    simp [addNewCompleted, hu, ht, hcond]

/-- C5 amended witness: the referenced user u9 is not a member and the acting
user is not an admin, so the create is rejected with 401 and nothing is
persisted; with an admin acting user the record is appended. -/
theorem addNewCompleted_spec_witness :
    addNewCompleted demoMember [sampleUser, strangerUser] [{ id := "t1" }] [] "u9"
        { id := "c9", test := "t1", user := "u9" } strangerUser =
      ([], .error (ErrorHandler.make notInTeamMessage 401)) ∧
    addNewCompleted demoMember [sampleUser] [{ id := "t1" }] [] "u1" demoBody
        adminUser =
      ([demoBody], .ok demoBody) := by
  constructor
  · exact (addNewCompleted_spec demoMember _ _ _ "u9" _ strangerUser).2.2.1
      strangerUser { id := "t1" } rfl rfl (by decide) (by decide)
  · exact (addNewCompleted_spec demoMember _ _ _ "u1" _ adminUser).2.2.2
      sampleUser { id := "t1" } rfl rfl (Or.inr rfl)
